import Mathlib

/-!
# Verification of the RTSP/HLS player component

This file gives a shallow embedding of the playback component
(`src/components/RTSPPlayer.tsx`) of the livestream-overlay repository:

* the two endpoint resolvers `convertRTSPToMediaMTXHLS` (the canonical one)
  and `convertToHLSUrl` (the variant found in the second copy of the
  component), as pure string transforms over a faithful model of the
  JavaScript string primitives they use (`split`, `includes`, `startsWith`,
  the `||`-default on the empty string);
* the session controller: the component state (`hlsRef`, `isPlaying`,
  `isMuted`, `isLoading`, `error`, `streamMode`), the operations
  `cleanup`, `loadHLSStream`, `togglePlay`, `toggleMute`, `retryStream`,
  and the asynchronous callbacks (manifest parsed, HLS error event,
  native-video events) as explicit state transitions, together with a
  resource model counting the constructed-and-not-destroyed `Hls` client
  instances.

Theorems about these definitions settle the specified properties of the
resolver and of the session state machine.
-/

/-! ## JavaScript string primitives

The component manipulates URLs with `String.prototype.split`,
`String.prototype.includes` and `String.prototype.startsWith`.  We model
them over `List Char` with structural recursion so that every definition
evaluates by kernel reduction.
-/

/-- One splitting pass of JavaScript `split` with a non-empty separator:
scan left to right, emit the accumulated segment whenever the separator
occurs (non-overlapping), and emit the trailing segment at the end.  The
fuel argument starts at the length of the scanned list, which is enough
for the scan to finish (each step consumes at least one character). -/
def splitGo (sep : List Char) : Nat → List Char → List Char → List (List Char)
  | _, [], acc => [acc.reverse]
  | 0, rest, acc => [acc.reverse ++ rest]
  | n+1, c :: cs, acc =>
    if sep.isPrefixOf (c :: cs) then
      acc.reverse :: splitGo sep n (List.drop sep.length (c :: cs)) []
    else
      splitGo sep n cs (c :: acc)

/-- JavaScript `String.prototype.split` on character lists.  All separators
appearing in the source (`"/"`, `"//"`, `":"`) are non-empty; the empty
separator branch is never exercised by the component. -/
def splitChars (sep s : List Char) : List (List Char) :=
  if sep.isEmpty then [s] else splitGo sep s.length s []

/-- JavaScript `s.split(sep)` for strings. -/
def jsSplit (s sep : String) : List String :=
  (splitChars sep.data s.data).map String.mk

/-- Does `pat` occur as a contiguous subsequence of the second list? -/
def containsSub (pat : List Char) : List Char → Bool
  | [] => pat.isEmpty
  | c :: cs => pat.isPrefixOf (c :: cs) || containsSub pat cs

/-- JavaScript `s.includes(pat)`: substring containment. -/
def jsIncludes (s pat : String) : Bool := containsSub pat.data s.data

/-- JavaScript `s.startsWith(p)`. -/
def jsStartsWith (s p : String) : Bool := p.data.isPrefixOf s.data

/-- JavaScript `a || b` for strings: the empty string is falsy. -/
def jsOrDefault (a b : String) : String := if a = "" then b else a

/-! ## The endpoint resolvers -/

/-- The host extraction of `convertRTSPToMediaMTXHLS`
(`rtspUrl.split('//')[1].split('/')[0].split(':')[0]`): the text between
`"//"` and the first `"/"` or `":"` after it. -/
def mediamtxHost (s : String) : String :=
  ((jsSplit ((jsSplit ((jsSplit s "//").getD 1 "") "/").headD "") ":").headD "")

/-- The last `"/"`-separated component of a locator
(`urlParts[urlParts.length - 1]`). -/
def lastSlashComponent (s : String) : String :=
  (jsSplit s "/").getLastD ""

/-- The stream path used by `convertRTSPToMediaMTXHLS`: the last path
component, defaulted to `"stream"` by JavaScript `|| 'stream'` when that
component is empty. -/
def streamPathOf (s : String) : String :=
  jsOrDefault (lastSlashComponent s) "stream"

/-- `convertRTSPToMediaMTXHLS` from `src/components/RTSPPlayer.tsx`
(lines 47–70): keep manifest URLs, translate `rtsp://` locators to the
MediaMTX HLS endpoint on port 8888, and fall back to the input. -/
def convertRTSPToMediaMTXHLS (rtspUrl : String) : String :=
  if jsIncludes rtspUrl ".m3u8" then
    rtspUrl
  else if jsStartsWith rtspUrl "rtsp://" then
    "http://" ++ mediamtxHost rtspUrl ++ ":8888/" ++ streamPathOf rtspUrl ++ "/index.m3u8"
  else
    rtspUrl

/-- `convertToHLSUrl` from the second copy of the player component
(`src/unnamed/part_001`, lines 46–64): keep manifest URLs, send every
`rtsp://` locator to the constant backend proxy URL, and fall back to the
input. -/
def convertToHLSUrl (url : String) : String :=
  if jsIncludes url ".m3u8" then
    url
  else if jsStartsWith url "rtsp://" then
    "http://localhost:3001/hls/stream.m3u8"
  else
    url

/-- The output formula claimed for the resolver on `rtsp://` locators:
`"http://" ++ h ++ ":8888/" ++ s ++ "/index.m3u8"` where `h` is the host
part and `s` is the last `"/"`-separated path component of the locator —
with no default substitution for an empty component.  Stated from the
claim's words, to be compared with `convertRTSPToMediaMTXHLS`. -/
def claimedManifestURL (s : String) : String :=
  "http://" ++ mediamtxHost s ++ ":8888/" ++ lastSlashComponent s ++ "/index.m3u8"

/-! ## The playback session controller

The component keeps its session state in React refs/state hooks; we model
it as an explicit record threaded through the operations.  `Hls` client
instances are identified by allocation order (`nextId`); `live` lists the
instances that have been constructed (`new Hls(...)`) and not destroyed
(`hls.destroy()`), which is the resource the teardown logic must not leak.
-/

/-- `streamMode` state: `'hls' | 'error'`. -/
inductive StreamMode where
  | hls
  | error
deriving DecidableEq, Repr

/-- The classification of an HLS error event (`data.type`). -/
inductive HlsErrType where
  | network
  | media
  | other
deriving DecidableEq, Repr

/-- Runtime capabilities probed by `loadHLSStream`: whether the video
element ref is present, whether `Hls.isSupported()` holds, and whether the
video surface advertises native HLS support via `canPlayType`. -/
structure Caps where
  videoPresent : Bool
  hlsSupported : Bool
  nativeHls : Bool
deriving DecidableEq, Repr

/-- The component state: the React state hooks and refs of `RTSPPlayer`,
plus the resource model (`live`, `nextId`) of constructed `Hls` instances,
whether native `<video src>` playback has been attached (with its
never-removed event listeners), and the manifest URL captured by the
current session's handlers. -/
structure PlayerState where
  hlsRef : Option Nat
  live : List Nat
  nextId : Nat
  isPlaying : Bool
  isMuted : Bool
  isLoading : Bool
  error : Option String
  streamMode : StreamMode
  nativeAttached : Bool
  loadedUrl : String
deriving DecidableEq, Repr

/-- The component's initial state (`useState` initial values, empty refs). -/
def initState : PlayerState :=
  { hlsRef := none, live := [], nextId := 0, isPlaying := false,
    isMuted := false, isLoading := false, error := none,
    streamMode := .hls, nativeAttached := false, loadedUrl := "" }

/-- `cleanup` (lines 40–45): if an `Hls` instance is held, destroy it and
null the reference. -/
def cleanup (st : PlayerState) : PlayerState :=
  match st.hlsRef with
  | some i => { st with live := st.live.erase i, hlsRef := none }
  | none => st

/-- The unsupported-browser message of the final `else` branch of
`loadHLSStream`. -/
def unsupportedMsg : String :=
  "HLS not supported in this browser. Please use a modern browser with HLS support."

/-- The prefix of `loadHLSStream` common to all capability branches
(lines 75–78): tear the previous client down, then
`setIsLoading(true); setError(null); setStreamMode('hls')`.  The manifest
URL is recorded as the one the session's handlers capture. -/
def loadPhase1 (url : String) (st : PlayerState) : PlayerState :=
  let st := cleanup st
  { st with isLoading := true, error := none, streamMode := .hls, loadedUrl := url }

/-- `loadHLSStream` (lines 72–177): guard on the video ref, tear down,
then the two-tier capability branch — construct an `Hls` client when
`Hls.isSupported()`, else attach the native `<video src>` path when
`canPlayType` advertises HLS, else set the unsupported error. -/
def loadHLSStream (caps : Caps) (url : String) (st : PlayerState) : PlayerState :=
  if caps.videoPresent = false then st
  else
    let st1 := loadPhase1 url st
    if caps.hlsSupported then
      { st1 with hlsRef := some st1.nextId, live := st1.nextId :: st1.live,
                 nextId := st1.nextId + 1 }
    else if caps.nativeHls then
      { st1 with nativeAttached := true }
    else
      { st1 with error := some unsupportedMsg, streamMode := .error,
                 isLoading := false }

/-- The final else branch of `loadHLSStream` as a step on the state it
executes in: set the capability-mismatch error, enter the error mode, end
loading. -/
def unsupportedStep (st : PlayerState) : PlayerState :=
  { st with error := some unsupportedMsg, streamMode := .error, isLoading := false }

/-- The `MANIFEST_PARSED` handler (lines 104–113): loading ends, error
clears (the autoplay `play()` attempt only logs on failure; a successful
play surfaces as a separate `onPlay` surface event). -/
def onManifestParsed (st : PlayerState) : PlayerState :=
  { st with isLoading := false, error := none }

/-- The `Hls.Events.ERROR` handler (lines 123–143), which captured the
manifest URL `url`: a fatal event of network, media or unclassified type
sets the corresponding message, `streamMode := 'error'` and ends loading;
a non-fatal event only logs. -/
def onHlsError (url : String) (fatal : Bool) (etype : HlsErrType)
    (details : String) (st : PlayerState) : PlayerState :=
  if fatal then
    let msg : String :=
      match etype with
      | .network =>
          "Network error loading MediaMTX HLS stream: " ++ details ++
            ". Check if MediaMTX is running and accessible at: " ++ url
      | .media =>
          "Media error in MediaMTX HLS stream: " ++ details ++
            ". Check RTSP source and MediaMTX configuration."
      | .other => "Fatal MediaMTX HLS error: " ++ details
    { st with error := some msg, streamMode := .error, isLoading := false }
  else st

/-- The native-path `'error'` listener (lines 150–155). -/
def onNativeError (url : String) (st : PlayerState) : PlayerState :=
  { st with error := some ("Error loading MediaMTX HLS stream in Safari: " ++ url),
            streamMode := .error, isLoading := false }

/-- The native-path `'loadeddata'` listener (lines 157–166). -/
def onNativeLoaded (st : PlayerState) : PlayerState :=
  { st with isLoading := false, error := none }

/-- `togglePlay` (lines 179–190): pause when playing (the surface then
fires `onPause`), otherwise attempt `play()`; when the attempt rejects
(`playFails`), set the error message.  `streamMode` is not touched. -/
def togglePlay (playFails : Bool) (st : PlayerState) : PlayerState :=
  if st.isPlaying then st
  else if playFails then
    { st with error := some "Failed to play stream. User interaction may be required." }
  else st

/-- `toggleMute` (lines 192–197). -/
def toggleMute (st : PlayerState) : PlayerState :=
  { st with isMuted := !st.isMuted }

/-- `retryStream` (lines 212–218): clear the error, then, when the locator
is truthy, re-resolve it and re-invoke `loadHLSStream`. -/
def retryStream (caps : Caps) (rtspUrl : String) (st : PlayerState) : PlayerState :=
  let st := { st with error := none }
  if rtspUrl = "" then st
  else loadHLSStream caps (convertRTSPToMediaMTXHLS rtspUrl) st

/-- The locator-change effect (lines 32–38): when the locator is truthy,
resolve it and load the resulting manifest URL. -/
def startSession (caps : Caps) (rtspUrl : String) (st : PlayerState) : PlayerState :=
  if rtspUrl = "" then st
  else loadHLSStream caps (convertRTSPToMediaMTXHLS rtspUrl) st

/-! ## The event layer

All progress of the component is driven by discrete events: user actions
and asynchronous callbacks.  A callback belongs to the client it was
registered on: handlers of a destroyed `Hls` instance no longer fire
(`hls.destroy()` detaches them), so HLS events are gated on `hlsRef`
holding an instance, and native `<video>` events on the native path having
been attached.  The URL a handler captured is the `loadedUrl` of the
session that registered it.
-/

/-- The events the component reacts to. -/
inductive Ev where
  /-- The locator-change effect invoking the resolver and `loadHLSStream`. -/
  | start (caps : Caps) (rtspUrl : String)
  /-- The user pressing the retry button (`retryStream`). -/
  | retry (caps : Caps) (rtspUrl : String)
  /-- `Hls.Events.MANIFEST_PARSED`. -/
  | manifestParsed
  /-- `Hls.Events.ERROR` with `data.fatal`, `data.type`, `data.details`. -/
  | hlsError (fatal : Bool) (etype : HlsErrType) (details : String)
  /-- The native-path `'error'` listener firing. -/
  | nativeError
  /-- The native-path `'loadeddata'` listener firing. -/
  | nativeLoaded
  /-- The native-path `'loadstart'` listener firing. -/
  | nativeLoadStart
  /-- The surface `onPlay` callback. -/
  | videoPlay
  /-- The surface `onPause` callback. -/
  | videoPause
  /-- The play/pause button (`togglePlay`); `playFails` is whether the
  `play()` promise rejects. -/
  | togglePlayEv (playFails : Bool)
  /-- The mute button (`toggleMute`). -/
  | toggleMuteEv
  /-- The unmount effect running `cleanup`. -/
  | unmount
deriving DecidableEq, Repr

/-- Events that begin a new load attempt (user-driven), as opposed to
callbacks of an existing session or direct surface controls. -/
def isStartEv : Ev → Bool
  | .start _ _ => true
  | .retry _ _ => true
  | _ => false

/-- The one-step transition of the component on an event. -/
def handleEv : Ev → PlayerState → PlayerState
  | .start caps rtspUrl, st => startSession caps rtspUrl st
  | .retry caps rtspUrl, st => retryStream caps rtspUrl st
  | .manifestParsed, st =>
      if st.hlsRef.isSome then onManifestParsed st else st
  | .hlsError fatal etype details, st =>
      if st.hlsRef.isSome then onHlsError st.loadedUrl fatal etype details st else st
  | .nativeError, st =>
      if st.nativeAttached then onNativeError st.loadedUrl st else st
  | .nativeLoaded, st =>
      if st.nativeAttached then onNativeLoaded st else st
  | .nativeLoadStart, st =>
      if st.nativeAttached then { st with isLoading := true } else st
  | .videoPlay, st => { st with isPlaying := true }
  | .videoPause, st => { st with isPlaying := false }
  | .togglePlayEv playFails, st => togglePlay playFails st
  | .toggleMuteEv, st => toggleMute st
  | .unmount, st => cleanup st

/-- Is some playback backend attached (an `Hls` client held, or the native
`<video src>` path set up)? -/
def attachedB (st : PlayerState) : Bool := st.hlsRef.isSome || st.nativeAttached

/-- The spec's abstract `PlaybackState` (§3); `Paused`/`Ready` are both
represented by `Ready` (attached, not loading, not playing). -/
inductive PBState where
  | Idle
  | Connecting
  | Ready
  | Playing
  | Errored
deriving DecidableEq, Repr

/-- The abstraction map from the component state to the spec's
`PlaybackState`: the Errored UI state is `streamMode = 'error'`, the
Connecting state is a load in progress, `Playing` is the surface playing,
`Ready` is an attached idle-but-loaded surface, `Idle` is nothing
attached. -/
def playbackStateOf (st : PlayerState) : PBState :=
  if st.streamMode = .error then .Errored
  else if st.isLoading then .Connecting
  else if st.isPlaying then .Playing
  else if attachedB st then .Ready
  else .Idle

/-- The `Hls`-client ownership invariant: the set of constructed and not
destroyed instances is exactly what `hlsRef` holds. -/
def hlsInv (st : PlayerState) : Prop :=
  st.live = (match st.hlsRef with | none => [] | some i => [i])

/-- Run a sequence of stream-load invocations. -/
def runStarts (calls : List (Caps × String)) (st : PlayerState) : PlayerState :=
  calls.foldl (fun s c => loadHLSStream c.1 c.2 s) st

/-! ## Helper lemmas -/

/-! Sanity instances of the resolver on concrete locators. -/

example : convertRTSPToMediaMTXHLS "rtsp://host:554/mystream" =
    "http://host:8888/mystream/index.m3u8" := by decide

example : convertRTSPToMediaMTXHLS "http://h:8888/s/index.m3u8" =
    "http://h:8888/s/index.m3u8" := by decide

example : convertRTSPToMediaMTXHLS "rtsp://host/" =
    "http://host:8888/stream/index.m3u8" := by decide

example : convertToHLSUrl "rtsp://host:554/mystream" =
    "http://localhost:3001/hls/stream.m3u8" := by decide

/-- A list is a prefix of itself under the boolean test. -/
theorem isPrefixOf_self (l : List Char) : l.isPrefixOf l = true := by
  induction l with
  | nil => rfl
  | cons c cs ih => simp [List.isPrefixOf, ih]

/-- A boolean-substring test succeeds on a suffix occurrence. -/
theorem containsSub_suffix (pat x : List Char) : containsSub pat (x ++ pat) = true := by
  induction x with
  | nil =>
    cases pat with
    | nil => rfl
    | cons c cs => simp [containsSub, isPrefixOf_self]
  | cons c cs ih => simp [containsSub, ih]

/-- A string with a given suffix `includes` that suffix. -/
theorem jsIncludes_append_self (x url : String) : jsIncludes (x ++ url) url = true := by
  unfold jsIncludes
  rw [String.data_append]
  exact containsSub_suffix url.data x.data

/-- Appending to a non-empty string is non-empty. -/
theorem left_append_ne_empty (a b : String) (ha : a ≠ "") : a ++ b ≠ "" := by
  intro h
  apply ha
  have hd : a.data ++ b.data = ([] : List Char) := by
    have hd0 := congrArg String.data h
    rw [String.data_append] at hd0
    exact hd0
  have hnil := (List.append_eq_nil.mp hd).1
  cases a with
  | mk d => cases hnil; rfl

/-- A string ending in `"/index.m3u8"` is never the constant backend-proxy
URL (their last eleven characters differ). -/
theorem mediamtx_url_ne_proxy (x : String) :
    x ++ "/index.m3u8" ≠ "http://localhost:3001/hls/stream.m3u8" := by
  intro h
  have hd := congrArg String.data h
  rw [String.data_append] at hd
  have h2 := congrArg (fun l => l.reverse.take 11) hd
  simp only [List.reverse_append] at h2
  rw [List.take_append_of_le_length (by decide)] at h2
  exact absurd h2 (by decide)

/-! ## Claims about the endpoint resolver -/

/-- C6: a locator that contains the manifest filename pattern `".m3u8"` is
returned unchanged by `convertRTSPToMediaMTXHLS`. -/
theorem C6_manifest_locator_unchanged (s : String)
    (h : jsIncludes s ".m3u8" = true) :
    convertRTSPToMediaMTXHLS s = s := by
  simp [convertRTSPToMediaMTXHLS, h]

/-- C6 witness: a concrete manifest-form locator round-trips unchanged. -/
theorem C6_witness :
    jsIncludes "http://cam7:8888/lobby/index.m3u8" ".m3u8" = true ∧
      convertRTSPToMediaMTXHLS "http://cam7:8888/lobby/index.m3u8" =
        "http://cam7:8888/lobby/index.m3u8" :=
  ⟨by decide, C6_manifest_locator_unchanged "http://cam7:8888/lobby/index.m3u8" (by decide)⟩

/-- C7: `convertRTSPToMediaMTXHLS` is a total transform; a locator that
matches neither the manifest pattern nor the `rtsp://` scheme (the empty
string included) falls back to the input unchanged. -/
theorem C7_fallback_identity (s : String)
    (h1 : jsIncludes s ".m3u8" = false)
    (h2 : jsStartsWith s "rtsp://" = false) :
    convertRTSPToMediaMTXHLS s = s := by
  simp [convertRTSPToMediaMTXHLS, h1, h2]

/-- C7 witness: the empty locator matches neither pattern and is returned
unchanged. -/
theorem C7_witness :
    jsIncludes "" ".m3u8" = false ∧ jsStartsWith "" "rtsp://" = false ∧
      convertRTSPToMediaMTXHLS "" = "" :=
  ⟨by decide, by decide, C7_fallback_identity "" (by decide) (by decide)⟩

/-- C2 counterexample: the locator `"rtsp://host/"` starts with
`"rtsp://"` and does not contain `".m3u8"`, its last `"/"`-separated path
component is empty, and the resolver substitutes the default stream name
`"stream"` instead of producing the claimed formula with the empty last
component. -/
theorem C2_counterexample :
    jsStartsWith "rtsp://host/" "rtsp://" = true ∧
    jsIncludes "rtsp://host/" ".m3u8" = false ∧
    lastSlashComponent "rtsp://host/" = "" ∧
    claimedManifestURL "rtsp://host/" = "http://host:8888//index.m3u8" ∧
    convertRTSPToMediaMTXHLS "rtsp://host/" = "http://host:8888/stream/index.m3u8" ∧
    convertRTSPToMediaMTXHLS "rtsp://host/" ≠ claimedManifestURL "rtsp://host/" := by
  decide

/-- C2 (amended): for every locator starting with `"rtsp://"` and not
containing `".m3u8"`, the resolver returns
`"http://" ++ h ++ ":8888/" ++ p ++ "/index.m3u8"` where `h` is the host
part and `p` is the last `"/"`-separated path component of the locator
when that component is non-empty, and the default name `"stream"` when it
is empty; on locators with a non-empty last component this is exactly the
claimed formula, and in particular `"rtsp://host:554/mystream"` resolves
to `"http://host:8888/mystream/index.m3u8"`. -/
theorem C2_amended_translation (s : String)
    (h1 : jsStartsWith s "rtsp://" = true)
    (h2 : jsIncludes s ".m3u8" = false) :
    convertRTSPToMediaMTXHLS s =
      "http://" ++ mediamtxHost s ++ ":8888/" ++
        (if lastSlashComponent s = "" then "stream" else lastSlashComponent s) ++
        "/index.m3u8" ∧
    (lastSlashComponent s ≠ "" →
      convertRTSPToMediaMTXHLS s = claimedManifestURL s) ∧
    convertRTSPToMediaMTXHLS "rtsp://host:554/mystream" =
      "http://host:8888/mystream/index.m3u8" := by
  refine ⟨?_, ?_, by decide⟩
  · simp only [convertRTSPToMediaMTXHLS, h1, h2, Bool.false_eq_true, if_false, if_true,
      streamPathOf, jsOrDefault]
  · intro hne
    simp only [convertRTSPToMediaMTXHLS, claimedManifestURL, h1, h2, Bool.false_eq_true,
      if_false, if_true, streamPathOf, jsOrDefault, hne]

/-- C2 witness: the amended translation instantiated at the claim's own
example locator, whose last path component is non-empty. -/
theorem C2_witness :
    convertRTSPToMediaMTXHLS "rtsp://host:554/mystream" =
      claimedManifestURL "rtsp://host:554/mystream" :=
  (C2_amended_translation "rtsp://host:554/mystream" (by decide) (by decide)).2.1 (by decide)

/-- C10: manifest detection is substring containment of `".m3u8"` checked
before the `rtsp://` scheme check — a locator satisfying both is returned
unchanged — and an `rtsp://` locator with an empty last path component is
translated with the default stream name `"stream"`. -/
theorem C10_detection_order_and_default (s : String) :
    (jsStartsWith s "rtsp://" = true → jsIncludes s ".m3u8" = true →
      convertRTSPToMediaMTXHLS s = s) ∧
    (jsStartsWith s "rtsp://" = true → jsIncludes s ".m3u8" = false →
      lastSlashComponent s = "" →
      convertRTSPToMediaMTXHLS s =
        "http://" ++ mediamtxHost s ++ ":8888/" ++ "stream" ++ "/index.m3u8") := by
  constructor
  · intro _ h2
    simp [convertRTSPToMediaMTXHLS, h2]
  · intro h1 h2 h3
    simp only [convertRTSPToMediaMTXHLS, h1, h2, Bool.false_eq_true, if_false, if_true,
      streamPathOf, jsOrDefault, h3, if_pos]

/-- C10 witness: a locator containing `".m3u8"` mid-path is returned
unchanged despite its `rtsp://` scheme, and a trailing-slash locator is
translated with the default stream name. -/
theorem C10_witness :
    convertRTSPToMediaMTXHLS "rtsp://host/x.m3u8/extra" = "rtsp://host/x.m3u8/extra" ∧
    convertRTSPToMediaMTXHLS "rtsp://host/" =
      "http://" ++ mediamtxHost "rtsp://host/" ++ ":8888/" ++ "stream" ++ "/index.m3u8" :=
  ⟨(C10_detection_order_and_default "rtsp://host/x.m3u8/extra").1 (by decide) (by decide),
   (C10_detection_order_and_default "rtsp://host/").2 (by decide) (by decide) (by decide)⟩

/-- C9: on every `rtsp://` locator without `".m3u8"`, the canonical
resolver produces the dedicated media-server URL
`"http://{host}:8888/{stream}/index.m3u8"` while `convertToHLSUrl`
produces the constant backend-proxy URL, and the two outputs differ; the
two functions agree — both returning the input unchanged — exactly on
locators containing `".m3u8"` or matching neither pattern. -/
theorem C9_resolver_divergence (s : String) :
    (jsStartsWith s "rtsp://" = true → jsIncludes s ".m3u8" = false →
      convertRTSPToMediaMTXHLS s =
        "http://" ++ mediamtxHost s ++ ":8888/" ++ streamPathOf s ++ "/index.m3u8" ∧
      convertToHLSUrl s = "http://localhost:3001/hls/stream.m3u8" ∧
      convertRTSPToMediaMTXHLS s ≠ convertToHLSUrl s) ∧
    (jsIncludes s ".m3u8" = true ∨ jsStartsWith s "rtsp://" = false →
      convertRTSPToMediaMTXHLS s = s ∧ convertToHLSUrl s = s) ∧
    (convertRTSPToMediaMTXHLS s = convertToHLSUrl s ↔
      (jsIncludes s ".m3u8" = true ∨ jsStartsWith s "rtsp://" = false)) := by
  have hboth : jsIncludes s ".m3u8" = true ∨ jsStartsWith s "rtsp://" = false →
      convertRTSPToMediaMTXHLS s = s ∧ convertToHLSUrl s = s := by
    intro h
    rcases h with h | h
    · exact ⟨by simp [convertRTSPToMediaMTXHLS, h], by simp [convertToHLSUrl, h]⟩
    · by_cases hm : jsIncludes s ".m3u8" = true
      · exact ⟨by simp [convertRTSPToMediaMTXHLS, hm], by simp [convertToHLSUrl, hm]⟩
      · have hm2 : jsIncludes s ".m3u8" = false := by
          cases hmm : jsIncludes s ".m3u8"
          · rfl
          · exact absurd hmm hm
        exact ⟨by simp [convertRTSPToMediaMTXHLS, hm2, h],
               by simp [convertToHLSUrl, hm2, h]⟩
  have hdiv : jsStartsWith s "rtsp://" = true → jsIncludes s ".m3u8" = false →
      convertRTSPToMediaMTXHLS s =
        "http://" ++ mediamtxHost s ++ ":8888/" ++ streamPathOf s ++ "/index.m3u8" ∧
      convertToHLSUrl s = "http://localhost:3001/hls/stream.m3u8" ∧
      convertRTSPToMediaMTXHLS s ≠ convertToHLSUrl s := by
    intro h1 h2
    have ha : convertRTSPToMediaMTXHLS s =
        "http://" ++ mediamtxHost s ++ ":8888/" ++ streamPathOf s ++ "/index.m3u8" := by
      simp [convertRTSPToMediaMTXHLS, h1, h2]
    have hb : convertToHLSUrl s = "http://localhost:3001/hls/stream.m3u8" := by
      simp [convertToHLSUrl, h1, h2]
    refine ⟨ha, hb, ?_⟩
    rw [ha, hb]
    exact mediamtx_url_ne_proxy ("http://" ++ mediamtxHost s ++ ":8888/" ++ streamPathOf s)
  refine ⟨hdiv, hboth, ?_, fun h => ((hboth h).1).trans ((hboth h).2).symm⟩
  intro heq
  by_cases h1 : jsStartsWith s "rtsp://" = true
  · by_cases h2 : jsIncludes s ".m3u8" = true
    · exact Or.inl h2
    · have h2f : jsIncludes s ".m3u8" = false := by
        cases hmm : jsIncludes s ".m3u8"
        · rfl
        · exact absurd hmm h2
      exact absurd heq (hdiv h1 h2f).2.2
  · right
    cases hmm : jsStartsWith s "rtsp://"
    · rfl
    · exact absurd hmm h1

/-- C9 witness: a concrete `rtsp://` locator on which the two resolvers
disagree, and a concrete manifest locator on which both return the input. -/
theorem C9_witness :
    convertRTSPToMediaMTXHLS "rtsp://cam:554/door" ≠ convertToHLSUrl "rtsp://cam:554/door" ∧
    convertRTSPToMediaMTXHLS "door.m3u8" = "door.m3u8" ∧
    convertToHLSUrl "door.m3u8" = "door.m3u8" :=
  ⟨((C9_resolver_divergence "rtsp://cam:554/door").1 (by decide) (by decide)).2.2,
   ((C9_resolver_divergence "door.m3u8").2.1 (Or.inl (by decide))).1,
   ((C9_resolver_divergence "door.m3u8").2.1 (Or.inl (by decide))).2⟩

/-! ## Claims about the session controller -/

/-- Teardown nulls the client reference. -/
theorem cleanup_hlsRef (st : PlayerState) : (cleanup st).hlsRef = none := by
  cases h : st.hlsRef <;> simp [cleanup, h]

/-- Teardown empties the live-instance set under the ownership invariant. -/
theorem cleanup_live_nil (st : PlayerState) (h : hlsInv st) : (cleanup st).live = [] := by
  unfold hlsInv at h
  cases hr : st.hlsRef with
  | none => rw [hr] at h; simp [cleanup, hr, h]
  | some i => rw [hr] at h; simp [cleanup, hr, h]

/-- Teardown does not touch the rest of the state. -/
theorem cleanup_rest (st : PlayerState) :
    (cleanup st).isPlaying = st.isPlaying ∧ (cleanup st).isMuted = st.isMuted ∧
    (cleanup st).isLoading = st.isLoading ∧ (cleanup st).error = st.error ∧
    (cleanup st).streamMode = st.streamMode ∧
    (cleanup st).nativeAttached = st.nativeAttached ∧
    (cleanup st).loadedUrl = st.loadedUrl ∧ (cleanup st).nextId = st.nextId := by
  cases h : st.hlsRef <;> simp [cleanup, h]

/-- One stream load preserves the client-ownership invariant. -/
theorem load_preserves_hlsInv (caps : Caps) (url : String) (st : PlayerState)
    (h : hlsInv st) : hlsInv (loadHLSStream caps url st) := by
  unfold loadHLSStream
  by_cases hv : caps.videoPresent = false
  · simpa [hv]
  · have hp1 : (loadPhase1 url st).hlsRef = none := by
      simp [loadPhase1, cleanup_hlsRef]
    have hp2 : (loadPhase1 url st).live = [] := by
      simp [loadPhase1, cleanup_live_nil st h]
    simp only [hv, if_false]
    by_cases hh : caps.hlsSupported
    · simp [hh, hlsInv, hp1, hp2]
    · by_cases hn : caps.nativeHls
      · simp [hh, hn, hlsInv, hp1, hp2]
      · simp [hh, hn, hlsInv, hp1, hp2]

/-- C1: under the ownership invariant (the live `Hls` instances are
exactly the one referenced, if any), any sequence of stream-load
invocations — rapid double starts included — preserves the invariant and
leaves at most one live `Hls` client instance. -/
theorem C1_at_most_one_client (st : PlayerState) (h : hlsInv st)
    (calls : List (Caps × String)) :
    hlsInv (runStarts calls st) ∧ (runStarts calls st).live.length ≤ 1 := by
  have main : ∀ (cs : List (Caps × String)) (s : PlayerState), hlsInv s →
      hlsInv (runStarts cs s) := by
    intro cs
    induction cs with
    | nil => intro s hs; exact hs
    | cons c rest ih =>
        intro s hs
        exact ih (loadHLSStream c.1 c.2 s) (load_preserves_hlsInv c.1 c.2 s hs)
  have h2 := main calls st h
  refine ⟨h2, ?_⟩
  unfold hlsInv at h2
  rw [h2]
  cases (runStarts calls st).hlsRef <;> simp

/-- C1 witness: two starts in immediate succession from the initial state
leave exactly one live client. -/
theorem C1_witness :
    (runStarts [(⟨true, true, true⟩, "http://a:8888/s/index.m3u8"),
                (⟨true, true, true⟩, "http://b:8888/t/index.m3u8")] initState).live.length ≤ 1 :=
  (C1_at_most_one_client initState rfl
    [(⟨true, true, true⟩, "http://a:8888/s/index.m3u8"),
     (⟨true, true, true⟩, "http://b:8888/t/index.m3u8")]).2

/-- Every capability branch of a guarded load records the manifest URL it
was invoked with. -/
theorem load_loadedUrl (caps : Caps) (url : String) (st : PlayerState)
    (hv : caps.videoPresent = true) :
    (loadHLSStream caps url st).loadedUrl = url := by
  unfold loadHLSStream
  simp only [hv, Bool.true_eq_false, if_false]
  have hp : (loadPhase1 url st).loadedUrl = url := by simp [loadPhase1]
  by_cases hh : caps.hlsSupported
  · simp [hh, hp]
  · by_cases hn : caps.nativeHls
    · simp [hh, hn, hp]
    · simp [hh, hn, hp]

/-- C8: with the video surface present and a non-empty locator, the load
triggered by a locator change records the resolver's manifest URL, and the
retry operation re-invokes the load with a manifest URL identical to the
recorded one — the resolver is deterministic, so re-resolving the
unchanged locator yields the same URL. -/
theorem C8_retry_same_url (caps : Caps) (rtspUrl : String) (st : PlayerState)
    (hv : caps.videoPresent = true) (hne : rtspUrl ≠ "") :
    (startSession caps rtspUrl st).loadedUrl = convertRTSPToMediaMTXHLS rtspUrl ∧
    (retryStream caps rtspUrl (startSession caps rtspUrl st)).loadedUrl =
      (startSession caps rtspUrl st).loadedUrl := by
  have h1 : (startSession caps rtspUrl st).loadedUrl = convertRTSPToMediaMTXHLS rtspUrl := by
    unfold startSession
    rw [if_neg hne]
    exact load_loadedUrl caps (convertRTSPToMediaMTXHLS rtspUrl) st hv
  have h2 : (retryStream caps rtspUrl (startSession caps rtspUrl st)).loadedUrl =
      convertRTSPToMediaMTXHLS rtspUrl := by
    unfold retryStream
    rw [if_neg hne]
    exact load_loadedUrl caps (convertRTSPToMediaMTXHLS rtspUrl) _ hv
  exact ⟨h1, h2.trans h1.symm⟩

/-- C8 witness: retrying after the load of a concrete locator re-attempts
exactly the recorded manifest URL. -/
theorem C8_witness :
    (startSession ⟨true, true, true⟩ "rtsp://host:554/mystream" initState).loadedUrl =
      convertRTSPToMediaMTXHLS "rtsp://host:554/mystream" ∧
    (retryStream ⟨true, true, true⟩ "rtsp://host:554/mystream"
        (startSession ⟨true, true, true⟩ "rtsp://host:554/mystream" initState)).loadedUrl =
      (startSession ⟨true, true, true⟩ "rtsp://host:554/mystream" initState).loadedUrl :=
  C8_retry_same_url ⟨true, true, true⟩ "rtsp://host:554/mystream" initState rfl (by decide)

/-- C3 counterexample: a fatal media-type error event transitions to the
error state with a non-empty message, but that message does not contain
the attempted manifest URL — only network-type fatal messages embed it. -/
theorem C3_counterexample :
    (onHlsError "http://host:8888/mystream/index.m3u8" true .media "bufferAppendError"
        initState).streamMode = .error ∧
    (onHlsError "http://host:8888/mystream/index.m3u8" true .media "bufferAppendError"
        initState).error = some
      "Media error in MediaMTX HLS stream: bufferAppendError. Check RTSP source and MediaMTX configuration." ∧
    jsIncludes
      "Media error in MediaMTX HLS stream: bufferAppendError. Check RTSP source and MediaMTX configuration."
      "http://host:8888/mystream/index.m3u8" = false := by
  decide

/-- C3 (amended): every fatal protocol error event — network, media or
unclassified — transitions the session to the error state and ends
loading, and the surfaced message is non-empty and states a cause; the
attempted manifest URL is contained in the message for network-type fatal
errors, while media-type and unclassified fatal messages do not embed it. -/
theorem C3_amended_fatal_error (url : String) (etype : HlsErrType) (details : String)
    (st : PlayerState) :
    (onHlsError url true etype details st).streamMode = .error ∧
    (onHlsError url true etype details st).isLoading = false ∧
    ∃ m, (onHlsError url true etype details st).error = some m ∧ m ≠ "" ∧
      (etype = .network → jsIncludes m url = true) := by
  cases etype with
  | network =>
      refine ⟨rfl, rfl, _, rfl, ?_, fun _ => jsIncludes_append_self _ url⟩
      exact left_append_ne_empty _ _
        (left_append_ne_empty _ _ (left_append_ne_empty _ _ (by decide)))
  | media =>
      refine ⟨rfl, rfl, _, rfl, ?_, fun hc => absurd hc (by decide)⟩
      exact left_append_ne_empty _ _ (left_append_ne_empty _ _ (by decide))
  | other =>
      refine ⟨rfl, rfl, _, rfl, ?_, fun hc => absurd hc (by decide)⟩
      exact left_append_ne_empty _ _ (by decide)

/-- C3 witness: a fatal network error at a concrete manifest URL surfaces
a non-empty message containing that URL. -/
theorem C3_witness :
    (onHlsError "http://h:8888/s/index.m3u8" true .network "manifestLoadError"
        initState).streamMode = .error ∧
    ∃ m, (onHlsError "http://h:8888/s/index.m3u8" true .network "manifestLoadError"
        initState).error = some m ∧ m ≠ "" ∧
      jsIncludes m "http://h:8888/s/index.m3u8" = true := by
  obtain ⟨h1, _, m, hm, hne, hn⟩ :=
    C3_amended_fatal_error "http://h:8888/s/index.m3u8" .network "manifestLoadError" initState
  exact ⟨h1, m, hm, hne, hn rfl⟩

/-- Without an attached session, no event other than a user-driven start
leaves the error stream mode. -/
theorem errored_stays_errored (st : PlayerState)
    (hm : st.streamMode = .error) (hr : st.hlsRef = none)
    (hn : st.nativeAttached = false) :
    ∀ e : Ev, isStartEv e = false → (handleEv e st).streamMode = .error := by
  intro e he
  cases e with
  | start caps u => simp [isStartEv] at he
  | retry caps u => simp [isStartEv] at he
  | manifestParsed => simp [handleEv, hr, hm]
  | hlsError f t d => simp [handleEv, hr, hm]
  | nativeError => simp [handleEv, hn, hm]
  | nativeLoaded => simp [handleEv, hn, hm]
  | nativeLoadStart => simp [handleEv, hn, hm]
  | videoPlay => simp [handleEv, hm]
  | videoPause => simp [handleEv, hm]
  | togglePlayEv pf =>
      by_cases hp : st.isPlaying
      · simp [handleEv, togglePlay, hp, hm]
      · by_cases hf : pf
        · simp [handleEv, togglePlay, hp, hf, hm]
        · simp [handleEv, togglePlay, hp, hf, hm]
  | toggleMuteEv => simp [handleEv, toggleMute, hm]
  | unmount =>
      rw [show (handleEv .unmount st) = cleanup st from rfl,
        (cleanup_rest st).2.2.2.2.1, hm]

/-- Field values of a guarded load when neither capability is available:
the error state, the capability-mismatch message, no client, no native
attachment beyond what was already there. -/
theorem load_unsupported_fields (caps : Caps) (url : String) (st : PlayerState)
    (hv : caps.videoPresent = true)
    (hh : caps.hlsSupported = false) (hn : caps.nativeHls = false) :
    (loadHLSStream caps url st).streamMode = .error ∧
    (loadHLSStream caps url st).error = some unsupportedMsg ∧
    (loadHLSStream caps url st).isLoading = false ∧
    (loadHLSStream caps url st).hlsRef = none ∧
    (loadHLSStream caps url st).nativeAttached = st.nativeAttached := by
  simp [loadHLSStream, hv, hh, hn, loadPhase1, cleanup_hlsRef,
    (cleanup_rest st).2.2.2.2.2.1]

/-- C5: capability selection on a guarded load is the two-tier fallback in
order — with the primary library supported an `Hls` client is constructed
and the native path is untouched; otherwise, with native support
advertised, the native path is attached and no client is constructed; with
neither, the session goes directly to the error state carrying the
capability-mismatch message, holds no client, and no event short of a new
user-driven start leaves that state. -/
theorem C5_capability_fallback (caps : Caps) (url : String) (st : PlayerState)
    (hv : caps.videoPresent = true) :
    (caps.hlsSupported = true →
      (loadHLSStream caps url st).hlsRef.isSome = true ∧
      (loadHLSStream caps url st).nativeAttached = st.nativeAttached ∧
      (loadHLSStream caps url st).streamMode = .hls) ∧
    (caps.hlsSupported = false → caps.nativeHls = true →
      (loadHLSStream caps url st).hlsRef = none ∧
      (loadHLSStream caps url st).nativeAttached = true ∧
      (loadHLSStream caps url st).streamMode = .hls) ∧
    (caps.hlsSupported = false → caps.nativeHls = false →
      (loadHLSStream caps url st).streamMode = .error ∧
      (loadHLSStream caps url st).error = some unsupportedMsg ∧
      (loadHLSStream caps url st).isLoading = false ∧
      (loadHLSStream caps url st).hlsRef = none ∧
      (st.nativeAttached = false →
        ∀ e : Ev, isStartEv e = false →
          (handleEv e (loadHLSStream caps url st)).streamMode = .error)) := by
  refine ⟨?_, ?_, ?_⟩
  · intro hh
    refine ⟨?_, ?_, ?_⟩
    · simp [loadHLSStream, hv, hh]
    · simp [loadHLSStream, hv, hh, loadPhase1, (cleanup_rest st).2.2.2.2.2.1]
    · simp [loadHLSStream, hv, hh, loadPhase1]
  · intro hh hn
    refine ⟨?_, ?_, ?_⟩
    · simp [loadHLSStream, hv, hh, hn, loadPhase1, cleanup_hlsRef]
    · simp [loadHLSStream, hv, hh, hn]
    · simp [loadHLSStream, hv, hh, hn, loadPhase1]
  · intro hh hn
    obtain ⟨f1, f2, f3, f4, f5⟩ := load_unsupported_fields caps url st hv hh hn
    refine ⟨f1, f2, f3, f4, ?_⟩
    intro hatt e he
    exact errored_stays_errored _ f1 f4 (f5.trans hatt) e he

/-- C5 witness: with neither capability available, a concrete load goes
directly to the error state with the capability-mismatch message, and a
subsequent surface event does not leave it. -/
theorem C5_witness :
    (loadHLSStream ⟨true, false, false⟩ "http://h:8888/s/index.m3u8" initState).streamMode
        = .error ∧
    (loadHLSStream ⟨true, false, false⟩ "http://h:8888/s/index.m3u8" initState).error
        = some unsupportedMsg ∧
    (handleEv .videoPlay
        (loadHLSStream ⟨true, false, false⟩ "http://h:8888/s/index.m3u8" initState)).streamMode
        = .error := by
  have h := (C5_capability_fallback ⟨true, false, false⟩ "http://h:8888/s/index.m3u8"
    initState rfl).2.2 rfl rfl
  exact ⟨h.1, h.2.1, h.2.2.2.2 rfl .videoPlay rfl⟩

/-- The abstract state is `Errored` exactly when `streamMode` is the error
mode. -/
theorem pb_errored_iff (st : PlayerState) :
    playbackStateOf st = .Errored ↔ st.streamMode = .error := by
  unfold playbackStateOf
  split
  · simp_all
  · split
    · simp_all
    · split
      · simp_all
      · split <;> simp_all

/-- An attached session is never in the abstract `Idle` state. -/
theorem pb_ne_idle_of_attached (st : PlayerState) (h : attachedB st = true) :
    playbackStateOf st ≠ .Idle := by
  unfold playbackStateOf
  split
  · simp
  · split
    · simp
    · split
      · simp
      · simp

/-- C4 counterexample: a reachable event sequence — start a supported
load, let the manifest parse, then receive a fatal network error — enters
the Errored state from the Ready state (manifest parsed, not yet
playing), which is neither Connecting nor Playing; the Errored state is
therefore not only reached from Connecting or Playing. -/
theorem C4_counterexample :
    playbackStateOf (handleEv (.start ⟨true, true, true⟩ "rtsp://host:554/mystream") initState)
        = .Connecting ∧
    playbackStateOf (handleEv .manifestParsed
        (handleEv (.start ⟨true, true, true⟩ "rtsp://host:554/mystream") initState)) = .Ready ∧
    playbackStateOf (handleEv (.hlsError true .network "levelLoadError")
        (handleEv .manifestParsed
          (handleEv (.start ⟨true, true, true⟩ "rtsp://host:554/mystream") initState)))
        = .Errored := by
  decide

/-- C4 (amended): the Errored state is never entered directly from Idle —
every callback event that enters it requires an attached session, the
in-load capability failure happens in the Connecting phase that every load
first enters, and `togglePlay` never changes the stream mode — but it can
be entered from Ready as well as from Connecting or Playing (a fatal
callback may fire after the manifest has parsed while not playing). -/
theorem C4_amended_errored_entry :
    (∀ (e : Ev) (st : PlayerState), isStartEv e = false →
      playbackStateOf st ≠ .Errored →
      playbackStateOf (handleEv e st) = .Errored →
      playbackStateOf st ≠ .Idle) ∧
    (∀ (url : String) (st : PlayerState), playbackStateOf (loadPhase1 url st) = .Connecting) ∧
    (∀ (caps : Caps) (url : String) (st : PlayerState),
      caps.videoPresent = true → caps.hlsSupported = false → caps.nativeHls = false →
      loadHLSStream caps url st = unsupportedStep (loadPhase1 url st)) ∧
    (∀ (pf : Bool) (st : PlayerState), (togglePlay pf st).streamMode = st.streamMode) := by
  refine ⟨?_, ?_, ?_, ?_⟩
  · intro e st hse hpre hpost
    have hpre2 : st.streamMode ≠ .error := fun hh => hpre ((pb_errored_iff st).mpr hh)
    cases e with
    | start caps u => simp [isStartEv] at hse
    | retry caps u => simp [isStartEv] at hse
    | manifestParsed =>
        exfalso
        apply hpre2
        have hsm : (handleEv .manifestParsed st).streamMode = st.streamMode := by
          by_cases hg : st.hlsRef.isSome = true <;> simp [handleEv, onManifestParsed, hg]
        rw [← hsm]
        exact (pb_errored_iff _).mp hpost
    | hlsError f t d =>
        by_cases hg : st.hlsRef.isSome = true
        · exact pb_ne_idle_of_attached st (by simp [attachedB, hg])
        · exfalso
          apply hpre
          have hid : handleEv (.hlsError f t d) st = st := by simp [handleEv, hg]
          rw [← hid]
          exact hpost
    | nativeError =>
        by_cases hg : st.nativeAttached = true
        · exact pb_ne_idle_of_attached st (by simp [attachedB, hg])
        · exfalso
          apply hpre
          have hid : handleEv .nativeError st = st := by simp [handleEv, hg]
          rw [← hid]
          exact hpost
    | nativeLoaded =>
        exfalso
        apply hpre2
        have hsm : (handleEv .nativeLoaded st).streamMode = st.streamMode := by
          by_cases hg : st.nativeAttached = true <;> simp [handleEv, onNativeLoaded, hg]
        rw [← hsm]
        exact (pb_errored_iff _).mp hpost
    | nativeLoadStart =>
        exfalso
        apply hpre2
        have hsm : (handleEv .nativeLoadStart st).streamMode = st.streamMode := by
          by_cases hg : st.nativeAttached = true <;> simp [handleEv, hg]
        rw [← hsm]
        exact (pb_errored_iff _).mp hpost
    | videoPlay =>
        exfalso
        apply hpre2
        have hsm : (handleEv .videoPlay st).streamMode = st.streamMode := by simp [handleEv]
        rw [← hsm]
        exact (pb_errored_iff _).mp hpost
    | videoPause =>
        exfalso
        apply hpre2
        have hsm : (handleEv .videoPause st).streamMode = st.streamMode := by simp [handleEv]
        rw [← hsm]
        exact (pb_errored_iff _).mp hpost
    | togglePlayEv pf =>
        exfalso
        apply hpre2
        have hsm : (handleEv (.togglePlayEv pf) st).streamMode = st.streamMode := by
          by_cases hp : st.isPlaying = true
          · simp [handleEv, togglePlay, hp]
          · by_cases hf : pf = true <;> simp [handleEv, togglePlay, hp, hf]
        rw [← hsm]
        exact (pb_errored_iff _).mp hpost
    | toggleMuteEv =>
        exfalso
        apply hpre2
        have hsm : (handleEv .toggleMuteEv st).streamMode = st.streamMode := by
          simp [handleEv, toggleMute]
        rw [← hsm]
        exact (pb_errored_iff _).mp hpost
    | unmount =>
        exfalso
        apply hpre2
        have hsm : (handleEv .unmount st).streamMode = st.streamMode :=
          (cleanup_rest st).2.2.2.2.1
        rw [← hsm]
        exact (pb_errored_iff _).mp hpost
  · intro url st
    simp [playbackStateOf, loadPhase1]
  · intro caps url st hv hh hn
    simp [loadHLSStream, unsupportedStep, hv, hh, hn]
  · intro pf st
    by_cases hp : st.isPlaying = true
    · simp [togglePlay, hp]
    · by_cases hf : pf = true <;> simp [togglePlay, hp, hf]

/-- C4 witness: the Ready state reached after a successful manifest parse,
from which a fatal error event enters Errored, is not the Idle state. -/
theorem C4_witness :
    playbackStateOf (handleEv .manifestParsed
      (handleEv (.start ⟨true, true, true⟩ "rtsp://host:554/mystream") initState)) ≠ .Idle :=
  C4_amended_errored_entry.1 (.hlsError true .network "levelLoadError") _ (by decide) (by decide)
    (by decide)
